import Mathlib

/-!
Verification of the canping168 firmware (src/main.c) against its
natural-language specification.

The program talks to an MCP2515 CAN controller over SPI.  Its externally
visible behaviour on the SPI transport is a sequence of calls to
`spi_slave_select`, `spi_putch`, `spi_getch` and `spi_slave_deselect`
(implemented in the spi module).  We embed the program shallowly as the
trace of these transport events it emits:

* `isrTrace v`  — the trace of `ISR(INT0_vect)` (src/main.c lines 44-74),
  where `v` is the byte returned by the single `spi_getch`;
* `startupTrace` — the trace of the five MCP2515 configuration commands
  of `main` (src/main.c lines 134-162);
* `mainTrace` — `startupTrace` interleaved with the `sei()` call
  (src/main.c line 168), the only other externally relevant action of
  `main`; the idle loop at lines 172-173 emits no events.

`printf` writes only to the debug USART and the pin/USART setup touches
no SPI state, so neither appears in the transport traces.
-/

namespace Canping

/-- C `uint8_t` semantics: a stored byte value reduced modulo 256. -/
def byte (n : Nat) : Nat := n % 256

/-- One call to the SPI transport layer, as declared in spi.h and used by
src/main.c: select a slave, send one byte, read one byte, deselect. -/
inductive SpiEvent where
  | select : Nat → SpiEvent
  | putch : Nat → SpiEvent
  | getch : SpiEvent
  | deselect : Nat → SpiEvent
deriving DecidableEq, Repr

/-- One byte exchanged while a slave is selected: either a byte sent with
`spi_putch` or a byte read with `spi_getch`. -/
inductive Exchange where
  | put : Nat → Exchange
  | get : Exchange
deriving DecidableEq, Repr

/-- The transport event performed by one exchange. -/
def Exchange.toEvent : Exchange → SpiEvent
  | Exchange.put b => SpiEvent.putch b
  | Exchange.get => SpiEvent.getch

/-- The events of one bracketed transaction: select the slave, perform the
exchanges, deselect the same slave. -/
def txnEvents (t : Nat × List Exchange) : List SpiEvent :=
  SpiEvent.select t.1 :: (t.2.map Exchange.toEvent ++ [SpiEvent.deselect t.1])

/-- The flat event trace of a list of bracketed transactions. -/
def traceOf (ts : List (Nat × List Exchange)) : List SpiEvent :=
  (ts.map txnEvents).flatten

/-- The bytes sent to the slave by a list of exchanges, provided the list
contains no read; `none` if a read occurs. -/
def putsOf : List Exchange → Option (List Nat)
  | [] => some []
  | Exchange.put b :: rest => (putsOf rest).map (fun bs => b :: bs)
  | Exchange.get :: _ => none

/-- The bytes a trace sends to the slave, in order (the `spi_putch` arguments). -/
def writtenBytes (tr : List SpiEvent) : List Nat :=
  tr.filterMap fun e =>
    match e with
    | SpiEvent.putch b => some b
    | _ => none

/-- State machine for the scoped-acquisition discipline of spec section 4.1:
`none` means no slave is selected, `some (s, n)` means slave `s` is selected
and `n` exchanges have happened since.  A trace is accepted when every select
is followed by at least one exchange and then exactly one deselect of the
same slave, selects are never nested, and the trace ends deselected. -/
def wbAux : Option (Nat × Nat) → List SpiEvent → Bool
  | none, [] => true
  | none, SpiEvent.select s :: rest => wbAux (some (s, 0)) rest
  | none, SpiEvent.putch _ :: _ => false
  | none, SpiEvent.getch :: _ => false
  | none, SpiEvent.deselect _ :: _ => false
  | some _, [] => false
  | some _, SpiEvent.select _ :: _ => false
  | some (s, n), SpiEvent.putch _ :: rest => wbAux (some (s, n + 1)) rest
  | some (s, n), SpiEvent.getch :: rest => wbAux (some (s, n + 1)) rest
  | some (s, n), SpiEvent.deselect t :: rest => (s == t) && (n != 0) && wbAux none rest

/-- A trace is well bracketed when accepted from the deselected state. -/
def wellBracketed (tr : List SpiEvent) : Bool := wbAux none tr

/-- Modelled from the spec: the MCP2515 command vocabulary of spec sections
4.2 and 6 (reset, write-register, bit-modify, read-register, request-to-send,
read-receive-buffer).  The opcode byte values are the controller-specific
constants referenced by the source comments and the datasheet: reset 0xC0,
write 0x02, read 0x03, bit-modify 0x05, read-rx-buffer 0x90/0x92/0x94/0x96,
request-to-send 0x80..0x87. -/
inductive CmdKind where
  | reset : CmdKind
  | writeReg : Nat → List Nat → CmdKind
  | readReg : Nat → CmdKind
  | bitModify : Nat → Nat → Nat → CmdKind
  | readRxBuffer : Nat → CmdKind
  | requestToSend : Nat → CmdKind
  | unknown : CmdKind
deriving DecidableEq, Repr

/-- Modelled from the spec: decode the exchanges of one bracketed transaction
into the command vocabulary of `CmdKind` (spec sections 4.2 and 6). -/
def decodeCmd : List Exchange → CmdKind
  | [Exchange.put 0xC0] => CmdKind.reset
  | [Exchange.put 0x03, Exchange.put a, Exchange.get] => CmdKind.readReg a
  | [Exchange.put 0x05, Exchange.put a, Exchange.put m, Exchange.put w] =>
      CmdKind.bitModify a m w
  | [Exchange.put op, Exchange.get] =>
      if op = 0x90 ∨ op = 0x92 ∨ op = 0x94 ∨ op = 0x96 then CmdKind.readRxBuffer op
      else CmdKind.unknown
  | [Exchange.put op] =>
      if 0x80 ≤ op ∧ op ≤ 0x87 then CmdKind.requestToSend op else CmdKind.unknown
  | Exchange.put 0x02 :: rest =>
      match putsOf rest with
      | some (a :: w :: ws) => CmdKind.writeReg a (w :: ws)
      | _ => CmdKind.unknown
  | _ => CmdKind.unknown

/-- The consecutive register addresses a command writes: a write of `ws`
starting at address `a` writes the registers `a, a+1, ..., a + ws.length - 1`
(spec section 4.2: values are written to consecutive registers). -/
def writtenRegs : CmdKind → List Nat
  | CmdKind.writeReg a ws => (List.range ws.length).map (fun i => a + i)
  | _ => []

/-- Shape test for a bit-modify data phase: exactly four sent bytes
(opcode, address, mask, value) and no read, per spec section 4.2. -/
def hasBitModifyShape : List Exchange → Bool
  | [Exchange.put _, Exchange.put _, Exchange.put _, Exchange.put _] => true
  | _ => false

/-- SPI trace of `ISR(INT0_vect)` (src/main.c lines 44-74), given that the
`spi_getch` at line 52 returns the byte `v`.  The local `uint8_t data`
truncates modulo 256, and `++data` at line 65 increments modulo 256.  The
trace is a line-by-line translation of the spi calls of the handler. -/
def isrTrace (v : Nat) : List SpiEvent :=
  let data := byte v
  let data' := byte (data + 1)
  [SpiEvent.select 0, SpiEvent.putch 0x92, SpiEvent.getch, SpiEvent.deselect 0,
   SpiEvent.select 0, SpiEvent.putch 0x02, SpiEvent.putch 0x31, SpiEvent.putch 0x00,
     SpiEvent.putch 0xE0, SpiEvent.putch 0x00, SpiEvent.putch 0x00, SpiEvent.putch 0x01,
     SpiEvent.putch data', SpiEvent.deselect 0,
   SpiEvent.select 0, SpiEvent.putch 0x81, SpiEvent.deselect 0]

/-- The trace of `ISR(INT0_vect)` grouped into its three bracketed
transactions: read the first received data byte (opcode 0x92), load the
transmit buffer (write starting at 0x31), flag ready to send (0x81). -/
def isrTxns (v : Nat) : List (Nat × List Exchange) :=
  [(0, [Exchange.put 0x92, Exchange.get]),
   (0, [Exchange.put 0x02, Exchange.put 0x31, Exchange.put 0x00, Exchange.put 0xE0,
        Exchange.put 0x00, Exchange.put 0x00, Exchange.put 0x01,
        Exchange.put (byte (byte v + 1))]),
   (0, [Exchange.put 0x81])]

/-- The reception handler as a function of its SPI input environment:
`env k` is the byte the transport returns for the k-th `spi_getch` of the
invocation.  The handler performs exactly one `spi_getch` (line 52), whose
result is its only input; `data` at line 46 is a local variable, so no state
survives between invocations. -/
def isrTraceEnv (env : Nat → Nat) : List SpiEvent := isrTrace (env 0)

/-- The exchanges of the load-transmit-buffer transaction of the handler. -/
def loadTxnExchanges (v : Nat) : List Exchange := ((isrTxns v).getD 1 (0, [])).2

/-- The bytes the load-transmit-buffer transaction sends, in order. -/
def loadTxnBytes (v : Nat) : List Nat := (putsOf (loadTxnExchanges v)).getD []

/-- The reply payload byte: the ninth byte the handler sends on the SPI bus,
the last byte of the load-transmit-buffer transaction (line 65). -/
def replyPayload (v : Nat) : Nat := (writtenBytes (isrTrace v)).getD 8 0

/-- The two transmit-buffer standard-identifier bytes the handler sends: the
bytes written to the registers at addresses 0x31 and 0x32 (the fourth and
fifth bytes sent on the bus, lines 60-61). -/
def sidBytes (v : Nat) : Nat × Nat :=
  ((writtenBytes (isrTrace v)).getD 3 0, (writtenBytes (isrTrace v)).getD 4 0)

/-- SPI trace of the MCP2515 configuration part of `main`
(src/main.c lines 134-162), translated line by line. -/
def startupTrace : List SpiEvent :=
  [SpiEvent.select 0, SpiEvent.putch 0xC0, SpiEvent.deselect 0,
   SpiEvent.select 0, SpiEvent.putch 0x02, SpiEvent.putch 0x28, SpiEvent.putch 0x03,
     SpiEvent.putch 0x9E, SpiEvent.putch 0x08, SpiEvent.deselect 0,
   SpiEvent.select 0, SpiEvent.putch 0x02, SpiEvent.putch 0x2B, SpiEvent.putch 0x01,
     SpiEvent.deselect 0,
   SpiEvent.select 0, SpiEvent.putch 0x02, SpiEvent.putch 0x60, SpiEvent.putch 0x60,
     SpiEvent.deselect 0,
   SpiEvent.select 0, SpiEvent.putch 0x02, SpiEvent.putch 0x0F, SpiEvent.putch 0x00,
     SpiEvent.deselect 0]

/-- The startup trace grouped into its five bracketed transactions: reset,
bit-timing write (CNF registers at 0x28), interrupt-enable write (0x2B),
receive-configuration write (0x60), operating-mode write (0x0F). -/
def startupTxns : List (Nat × List Exchange) :=
  [(0, [Exchange.put 0xC0]),
   (0, [Exchange.put 0x02, Exchange.put 0x28, Exchange.put 0x03, Exchange.put 0x9E,
        Exchange.put 0x08]),
   (0, [Exchange.put 0x02, Exchange.put 0x2B, Exchange.put 0x01]),
   (0, [Exchange.put 0x02, Exchange.put 0x60, Exchange.put 0x60]),
   (0, [Exchange.put 0x02, Exchange.put 0x0F, Exchange.put 0x00])]

/-- An externally relevant action of `main`: an SPI transport event, or the
`sei()` call that enables global interrupts (src/main.c line 168). -/
inductive MainEvent where
  | spi : SpiEvent → MainEvent
  | sei : MainEvent
deriving DecidableEq, Repr

/-- Recognizer for the interrupt-enable event. -/
def MainEvent.isSei : MainEvent → Bool
  | MainEvent.sei => true
  | _ => false

/-- The complete trace of SPI and interrupt-enable actions of `main`
(src/main.c lines 100-176), translated line by line: the five configuration
commands, then `sei()`.  The infinite idle loop at lines 172-173 performs no
action, so the whole-execution trace is this finite list; USART output and
pin configuration touch neither the SPI transport nor the interrupt flag. -/
def mainTrace : List MainEvent :=
  [MainEvent.spi (SpiEvent.select 0), MainEvent.spi (SpiEvent.putch 0xC0),
     MainEvent.spi (SpiEvent.deselect 0),
   MainEvent.spi (SpiEvent.select 0), MainEvent.spi (SpiEvent.putch 0x02),
     MainEvent.spi (SpiEvent.putch 0x28), MainEvent.spi (SpiEvent.putch 0x03),
     MainEvent.spi (SpiEvent.putch 0x9E), MainEvent.spi (SpiEvent.putch 0x08),
     MainEvent.spi (SpiEvent.deselect 0),
   MainEvent.spi (SpiEvent.select 0), MainEvent.spi (SpiEvent.putch 0x02),
     MainEvent.spi (SpiEvent.putch 0x2B), MainEvent.spi (SpiEvent.putch 0x01),
     MainEvent.spi (SpiEvent.deselect 0),
   MainEvent.spi (SpiEvent.select 0), MainEvent.spi (SpiEvent.putch 0x02),
     MainEvent.spi (SpiEvent.putch 0x60), MainEvent.spi (SpiEvent.putch 0x60),
     MainEvent.spi (SpiEvent.deselect 0),
   MainEvent.spi (SpiEvent.select 0), MainEvent.spi (SpiEvent.putch 0x02),
     MainEvent.spi (SpiEvent.putch 0x0F), MainEvent.spi (SpiEvent.putch 0x00),
     MainEvent.spi (SpiEvent.deselect 0),
   MainEvent.sei]

/-- C1: for every received first-data-byte value `v`, the payload byte the
reception handler writes into the transmit buffer (the last byte of the
load-transmit-buffer transaction) equals `(v + 1) % 256`; in particular
0xFF yields 0x00 by unsigned 8-bit wraparound, which the code produces as
its normal total behaviour, not an error path. -/
theorem reply_payload_plus_one (v : Nat) : replyPayload v = (v + 1) % 256 := by
  show (v % 256 + 1) % 256 = (v + 1) % 256
  omega

/-- C2: in every reception-handler invocation, whatever byte `v` was
received (and hence whatever the received frame's identifier was, since the
received byte is the handler's only input), the standard-identifier bytes
written into the transmit buffer are the fixed constants SIDH = 0x00 and
SIDL = 0xE0, which encode the single configured reply identifier SID 0x07
(source comment at src/main.c line 61). -/
theorem reply_identifier_fixed (v : Nat) : sidBytes v = (0x00, 0xE0) := rfl

/-- C3: the startup sequence is exactly the five bracketed register-protocol
commands, in the fixed order reset, bit-timing write (registers at 0x28),
interrupt-enable write (0x2B), receive-filter-configuration write (0x60),
operating-mode write (0x0F).  `startupTrace` is a closed constant translated
from src/main.c lines 134-162: no other controller command precedes the
reset and no program state influences the order. -/
theorem startup_five_commands :
    startupTrace = traceOf startupTxns ∧
    startupTxns.length = 5 ∧
    wellBracketed startupTrace = true ∧
    startupTxns.map (fun t => decodeCmd t.2) =
      [CmdKind.reset,
       CmdKind.writeReg 0x28 [0x03, 0x9E, 0x08],
       CmdKind.writeReg 0x2B [0x01],
       CmdKind.writeReg 0x60 [0x60],
       CmdKind.writeReg 0x0F [0x00]] := by
  refine ⟨rfl, rfl, rfl, rfl⟩

/-- C4 counterexample: on received byte 0x10 (the spec's own scenario), the
transaction that flags the transmit buffer ready to send — the third
bracketed transaction of the handler — consists of the single sent byte
0x81; it does not have the bit-modify shape opcode + address + mask + value
(four sent bytes), so the claim that it is a bit-modify transaction is
false. -/
theorem rts_not_bitmodify :
    ((isrTxns 0x10).getD 2 (0, [])).2 = [Exchange.put 0x81] ∧
    hasBitModifyShape ((isrTxns 0x10).getD 2 (0, [])).2 = false ∧
    ¬ hasBitModifyShape ((isrTxns 0x10).getD 2 (0, [])).2 = true := by
  refine ⟨rfl, rfl, by decide⟩

/-- C4 (amended): in every reception-handler invocation, the command that
flags the just-loaded transmit buffer ready to send is a single-opcode
request-to-send transaction (one byte, 0x81), fully bracketed, and it is the
third transaction, following the load-transmit-buffer transaction (the
second, a register write starting at 0x31). -/
theorem ready_to_send_follows_load (v : Nat) :
    isrTrace v = traceOf (isrTxns v) ∧
    decodeCmd ((isrTxns v).getD 2 (0, [])).2 = CmdKind.requestToSend 0x81 ∧
    decodeCmd ((isrTxns v).getD 1 (0, [])).2 =
      CmdKind.writeReg 0x31 [0x00, 0xE0, 0x00, 0x00, 0x01, byte (byte v + 1)] := by
  refine ⟨rfl, rfl, rfl⟩

/-- C5: the load-transmit-buffer transaction writes, after its opcode 0x02,
the operand bytes sequentially in exactly the order the spec lists: the
buffer-control/pointer byte 0x31, the zero byte the spec labels
extended-identifier-high, the standard-identifier field bytes
0xE0, 0x00, 0x00 encoding the fixed reply identifier, the data-length-code
byte equal to 1, then the single payload byte `(v + 1) % 256` — a complete
frame descriptor in one bracketed transaction. -/
theorem load_txn_field_order (v : Nat) (hv : v < 256) :
    isrTrace v = traceOf (isrTxns v) ∧
    loadTxnBytes v =
      0x02 :: ([0x31] ++ [0x00] ++ [0xE0, 0x00, 0x00] ++ [0x01] ++ [(v + 1) % 256]) := by
  refine ⟨rfl, ?_⟩
  show [0x02, 0x31, 0x00, 0xE0, 0x00, 0x00, 0x01, (v % 256 + 1) % 256] =
    [0x02, 0x31, 0x00, 0xE0, 0x00, 0x00, 0x01, (v + 1) % 256]
  have : (v % 256 + 1) % 256 = (v + 1) % 256 := by omega
  rw [this]

/-- C5 witness: the spec's scenario at received byte 0x10 — the
load-transmit-buffer transaction carries payload 0x11. -/
theorem load_txn_field_order_witness :
    0x10 < 256 ∧
    (isrTrace 0x10 = traceOf (isrTxns 0x10) ∧
     loadTxnBytes 0x10 =
       0x02 :: ([0x31] ++ [0x00] ++ [0xE0, 0x00, 0x00] ++ [0x01] ++ [(0x10 + 1) % 256])) :=
  ⟨by decide, load_txn_field_order 0x10 (by decide)⟩

/-- C6: every command sequence the program issues is well bracketed: in the
startup trace and in the reception-handler trace for every received byte,
each select of slave 0 is followed by one or more exchanges and then exactly
one deselect of the same slave, selects and deselects are always paired and
never nested, and no command spans more than one selection. -/
theorem traces_well_bracketed :
    wellBracketed startupTrace = true ∧
    ∀ v : Nat, wellBracketed (isrTrace v) = true := by
  refine ⟨rfl, fun v => rfl⟩

/-- C7: every reception-handler invocation is exactly three bracketed
transactions, in order: a read-receive-buffer transaction whose single
opcode byte 0x92 selects the first-data-byte read pointer and which performs
exactly one read with no separate address phase; then the
load-transmit-buffer transaction (a write starting at register 0x31); then
the ready-to-send transaction (0x81).  The decoded command list shows the
handler issues no read-register and no bit-modify command, and its only
write targets the transmit buffer at 0x31 — so no command explicitly reads
or clears the receive-interrupt-pending flag. -/
theorem isr_three_bracketed_txns (v : Nat) :
    isrTrace v = traceOf (isrTxns v) ∧
    (isrTxns v).length = 3 ∧
    (isrTxns v).getD 0 (0, []) = (0, [Exchange.put 0x92, Exchange.get]) ∧
    (isrTxns v).map (fun t => decodeCmd t.2) =
      [CmdKind.readRxBuffer 0x92,
       CmdKind.writeReg 0x31 [0x00, 0xE0, 0x00, 0x00, 0x01, byte (byte v + 1)],
       CmdKind.requestToSend 0x81] := by
  refine ⟨rfl, rfl, rfl, rfl⟩

/-- C8 counterexample: the fourth startup command is the write transaction
with opcode 0x02, address 0x60 and the single value byte 0x60; it writes
exactly one register (address 0x60, the receive-buffer control register).
Writing both the acceptance-filter registers and the acceptance-mask
registers — two disjoint register groups — would require writing at least
two registers, so the claim is false of the fourth command. -/
theorem fourth_command_one_register :
    startupTrace = traceOf startupTxns ∧
    decodeCmd ((startupTxns.getD 3 (0, [])).2) = CmdKind.writeReg 0x60 [0x60] ∧
    writtenRegs (decodeCmd ((startupTxns.getD 3 (0, [])).2)) = [0x60] ∧
    ¬ 2 ≤ (writtenRegs (decodeCmd ((startupTxns.getD 3 (0, [])).2))).length := by
  refine ⟨rfl, rfl, rfl, by decide⟩

/-- C8 (amended): the fourth startup command writes the single value byte
0x60 to the single register at address 0x60 — the receive-buffer control
register — which configures the controller to accept frames from every
identifier by turning filtering off (source comment at src/main.c line 152),
rather than by writing the acceptance-filter and acceptance-mask
registers. -/
theorem fourth_command_accept_any :
    startupTrace = traceOf startupTxns ∧
    (startupTxns.getD 3 (0, [])).2 =
      [Exchange.put 0x02, Exchange.put 0x60, Exchange.put 0x60] ∧
    (writtenRegs (decodeCmd ((startupTxns.getD 3 (0, [])).2))).length = 1 := by
  refine ⟨rfl, rfl, rfl⟩

/-- C9: the reception handler is deterministic and stateless: its trace is a
function of its SPI input environment only through the byte returned by its
single `spi_getch`, so two invocations whose read returns the same byte emit
the identical sequence of transport events (in particular identical written
bytes and reply payload); the handler's only variable is the local `data`
(src/main.c line 46), so no program variable carries state between
invocations. -/
theorem isr_deterministic (e₁ e₂ : Nat → Nat) (h : e₁ 0 = e₂ 0) :
    isrTraceEnv e₁ = isrTraceEnv e₂ := by
  unfold isrTraceEnv
  rw [h]

/-- C9 witness: two syntactically different environments agreeing on the
byte returned by the handler's read produce the identical trace. -/
theorem isr_deterministic_witness :
    isrTraceEnv (fun _ => 0x10) = isrTraceEnv (fun k => 0x10 + 0 * k) :=
  isr_deterministic (fun _ => 0x10) (fun k => 0x10 + 0 * k) (by decide)

/-- C10: global interrupts are enabled only after the whole five-command
configuration sequence has completed: the prefix of the main trace before
`sei` is exactly the startup trace (all five bracketed commands), and after
`sei` the main context performs no further transport action (the trailing
trace is just the `sei` event; the idle loop emits nothing).  Hence no
reception-handler transaction can interleave with a startup transaction. -/
theorem sei_after_startup :
    mainTrace.takeWhile (fun e => !(MainEvent.isSei e)) =
      (traceOf startupTxns).map MainEvent.spi ∧
    mainTrace.dropWhile (fun e => !(MainEvent.isSei e)) = [MainEvent.sei] := by
  refine ⟨rfl, rfl⟩

end Canping
